import Mathlib

/-!
Shallow embedding of the sudoservice systemd unit-file generator and
service controller (src/systemd/{mod,macros,unit,service,install,exec}.rs).

Rust `fmt::Display` impls become pure functions producing the rendered
`String`; the `systemctl`-driving controller operations become functions
over an explicit `World` describing the outcomes of file-system operations
and external command invocations, returning the result value together with
the ordered trace of side effects (`Event`s) they perform.
-/

namespace Sudoservice

/-- Rust `str::trim`: drop whitespace from both ends. -/
def strTrim (s : String) : String :=
  ⟨(((s.data.dropWhile Char.isWhitespace).reverse).dropWhile Char.isWhitespace).reverse⟩

/-- Substring occurrence on character lists (Rust `str::contains(&str)`). -/
def isSubList (needle : List Char) : List Char → Bool
  | [] => needle.isPrefixOf []
  | c :: t => needle.isPrefixOf (c :: t) || isSubList needle t

/-- Rust `String::contains(&str)`: `needle` occurs as a contiguous substring of `hay`. -/
def containsSub (hay needle : String) : Bool :=
  isSubList needle.data hay.data

/-- Rust `str::splitn(2, c)` on the character list: split at the first
occurrence of `c`, yielding two parts when `c` occurs and one otherwise. -/
def splitFirst (cs : List Char) (c : Char) : List (List Char) :=
  match cs with
  | [] => [[]]
  | x :: xs =>
    if x = c then [[], xs]
    else
      match splitFirst xs c with
      | [] => [[x]]
      | p :: rest => (x :: p) :: rest

/-- macros.rs `write_option!`: emit `Key=value` for a present optional field. -/
def write_option (field : Option String) (key : String) : String :=
  match field with
  | some value => key ++ "=" ++ value ++ "\n"
  | none => ""

/-- macros.rs `write_vec!`: present non-empty list renders as one
space-joined `Key=v1 v2 ...` line; empty or absent list renders nothing. -/
def write_vec (field : Option (List String)) (key : String) : String :=
  match field with
  | some values =>
    if values.isEmpty then ""
    else key ++ "=" ++ String.intercalate " " values ++ "\n"
  | none => ""

/-- macros.rs `write_vec_multi!`: one `Key=value` line per element. -/
def write_vec_multi (field : Option (List String)) (key : String) : String :=
  match field with
  | some values => String.join (values.map fun value => key ++ "=" ++ value ++ "\n")
  | none => ""

/-- macros.rs `write_bool!`: `Key=yes` / `Key=no` for a present boolean. -/
def write_bool (field : Option Bool) (key : String) : String :=
  match field with
  | some value => key ++ "=" ++ (if value then "yes" else "no") ++ "\n"
  | none => ""

/-- mod.rs `Status`: the normalized service status enumeration. -/
inductive Status where
  | Running
  | Stopped
  | Unknown
  | NotInstalled
  | Failed
  deriving DecidableEq, Repr

/-- error.rs `Error`: the shared error taxonomy. Payloads are the carried
message strings (`io::Error` / `fmt::Error` modelled by their display text). -/
inductive Error where
  | IoError (msg : String)
  | FmtError (msg : String)
  | ValidationError (msg : String)
  | CommandError (msg : String)
  deriving DecidableEq, Repr

/-- Captured outcome of one external command invocation
(`std::process::Output`: exit-status success flag, stdout, stderr). -/
structure CmdOutput where
  success : Bool
  stdout : String
  stderr : String
  deriving DecidableEq, Repr

/-- One observable side effect performed by a controller operation. -/
inductive Event where
  | createFile (path : String)
  | writeFile (path : String) (contents : String)
  | setPermissions (path : String) (mode : Nat)
  | removeFile (path : String)
  | runCommand (args : List String)
  deriving DecidableEq, Repr

/-- The external world a controller operation runs against: whether the
unit-file path exists, the outcomes of the file-system operations, and the
captured outputs of each possible `systemctl` invocation. -/
structure World where
  fileExists : Bool
  createResult : Except String Unit
  writeResult : Except String Unit
  permResult : Except String Unit
  enableResult : CmdOutput
  reloadResult : CmdOutput
  disableResult : CmdOutput
  removeResult : Except String Unit
  isActiveResult : CmdOutput
  listUnitFilesResult : CmdOutput

/-- service.rs `ServiceType`. -/
inductive ServiceType where
  | Simple | Exec | Forking | Oneshot | Dbus | Notify | NotifyReload | Idle
  deriving DecidableEq, Repr

/-- service.rs `Display for ServiceType`. -/
def ServiceType.fmt : ServiceType → String
  | .Simple => "simple"
  | .Exec => "exec"
  | .Forking => "forking"
  | .Oneshot => "oneshot"
  | .Dbus => "dbus"
  | .Notify => "notify"
  | .NotifyReload => "notify-reload"
  | .Idle => "idle"

/-- service.rs `ExitType`. -/
inductive ExitType where
  | Main | Cgroup
  deriving DecidableEq, Repr

/-- service.rs `Display for ExitType`. -/
def ExitType.fmt : ExitType → String
  | .Main => "main"
  | .Cgroup => "cgroup"

/-- service.rs `RestartType`. -/
inductive RestartType where
  | No | OnSuccess | OnFailure | OnAbnormal | OnWatchdog | OnAbort | Always
  deriving DecidableEq, Repr

/-- service.rs `Display for RestartType`. -/
def RestartType.fmt : RestartType → String
  | .No => "no"
  | .OnSuccess => "on-success"
  | .OnFailure => "on-failure"
  | .OnAbnormal => "on-abnormal"
  | .OnWatchdog => "on-watchdog"
  | .OnAbort => "on-abort"
  | .Always => "always"

/-- service.rs `RestartMode`. -/
inductive RestartMode where
  | Normal | Direct | Debug
  deriving DecidableEq, Repr

/-- service.rs `Display for RestartMode`. -/
def RestartMode.fmt : RestartMode → String
  | .Normal => "normal"
  | .Direct => "direct"
  | .Debug => "debug"

/-- service.rs `NotifyAccess`. -/
inductive NotifyAccess where
  | None | Main | Exec | All
  deriving DecidableEq, Repr

/-- service.rs `Display for NotifyAccess`. -/
def NotifyAccess.fmt : NotifyAccess → String
  | .None => "none"
  | .Main => "main"
  | .Exec => "exec"
  | .All => "all"

/-- service.rs `TimeoutFailureMode`. -/
inductive TimeoutFailureMode where
  | Terminate | Abort | Kill
  deriving DecidableEq, Repr

/-- service.rs `Display for TimeoutFailureMode`. -/
def TimeoutFailureMode.fmt : TimeoutFailureMode → String
  | .Terminate => "terminate"
  | .Abort => "abort"
  | .Kill => "kill"

/-- service.rs `OomPolicy`. -/
inductive OomPolicy where
  | Continue | Stop | Kill
  deriving DecidableEq, Repr

/-- service.rs `Display for OomPolicy`. -/
def OomPolicy.fmt : OomPolicy → String
  | .Continue => "continue"
  | .Stop => "stop"
  | .Kill => "kill"

/-- unit.rs `CollectMode`. -/
inductive CollectMode where
  | Inactive | InactiveOrFailed
  deriving DecidableEq, Repr

/-- unit.rs `Display for CollectMode`. -/
def CollectMode.fmt : CollectMode → String
  | .Inactive => "inactive"
  | .InactiveOrFailed => "inactive-or-failed"

/-- unit.rs `JobMode`. -/
inductive JobMode where
  | Fail | Replace | ReplaceIrreversibly | Isolate | Flush
  | IgnoreDependencies | IgnoreRequirements
  deriving DecidableEq, Repr

/-- unit.rs `Display for JobMode`. -/
def JobMode.fmt : JobMode → String
  | .Fail => "fail"
  | .Replace => "replace"
  | .ReplaceIrreversibly => "replace-irreversibly"
  | .Isolate => "isolate"
  | .Flush => "flush"
  | .IgnoreDependencies => "ignore-dependencies"
  | .IgnoreRequirements => "ignore-requirements"

/-- unit.rs `Action`. -/
inductive Action where
  | None | Reboot | RebootForce | RebootImmediate
  | Poweroff | PoweroffForce | PoweroffImmediate
  | Exit | ExitForce | SoftReboot | SoftRebootForce
  | Kexec | KexecForce | Halt | HaltForce | HaltImmediate
  deriving DecidableEq, Repr

/-- unit.rs `Display for Action`. -/
def Action.fmt : Action → String
  | .None => "none"
  | .Reboot => "reboot"
  | .RebootForce => "reboot-force"
  | .RebootImmediate => "reboot-immediate"
  | .Poweroff => "poweroff"
  | .PoweroffForce => "poweroff-force"
  | .PoweroffImmediate => "poweroff-immediate"
  | .Exit => "exit"
  | .ExitForce => "exit-force"
  | .SoftReboot => "soft-reboot"
  | .SoftRebootForce => "soft-reboot-force"
  | .Kexec => "kexec"
  | .KexecForce => "kexec-force"
  | .Halt => "halt"
  | .HaltForce => "halt-force"
  | .HaltImmediate => "halt-immediate"

/-- unit.rs `SecurityTech`. -/
inductive SecurityTech where
  | Selinux | Apparmor | Tomoyo | Smack | Ima | Audit
  | UefiSecureboot | Tpm2 | Cvm | MeasuredUki
  deriving DecidableEq, Repr

/-- unit.rs `Display for SecurityTech`. -/
def SecurityTech.fmt : SecurityTech → String
  | .Selinux => "selinux"
  | .Apparmor => "apparmor"
  | .Tomoyo => "tomoyo"
  | .Smack => "smack"
  | .Ima => "ima"
  | .Audit => "audit"
  | .UefiSecureboot => "uefi-secureboot"
  | .Tpm2 => "tpm2"
  | .Cvm => "cvm"
  | .MeasuredUki => "measured-uki"

/-- unit.rs `Architecture`. -/
inductive Architecture where
  | X86 | X8664 | Ppc | PpcLe | Ppc64 | Ppc64Le | Ia64 | Parisc | Parisc64
  | S390 | S390x | Sparc | Sparc64 | Mips | MipsLe | Mips64 | Mips64Le
  | Alpha | Arm | ArmBe | Arm64 | Arm64Be | Sh | Sh64 | M68k | Tilegx
  | Cris | Arc | ArcBe | Native
  deriving DecidableEq, Repr

/-- unit.rs `Display for Architecture`. -/
def Architecture.fmt : Architecture → String
  | .X86 => "x86"
  | .X8664 => "x86-64"
  | .Ppc => "ppc"
  | .PpcLe => "ppc-le"
  | .Ppc64 => "ppc64"
  | .Ppc64Le => "ppc64-le"
  | .Ia64 => "ia64"
  | .Parisc => "parisc"
  | .Parisc64 => "parisc64"
  | .S390 => "s390"
  | .S390x => "s390x"
  | .Sparc => "sparc"
  | .Sparc64 => "sparc64"
  | .Mips => "mips"
  | .MipsLe => "mips-le"
  | .Mips64 => "mips64"
  | .Mips64Le => "mips64-le"
  | .Alpha => "alpha"
  | .Arm => "arm"
  | .ArmBe => "arm-be"
  | .Arm64 => "arm64"
  | .Arm64Be => "arm64-be"
  | .Sh => "sh"
  | .Sh64 => "sh64"
  | .M68k => "m68k"
  | .Tilegx => "tilegx"
  | .Cris => "cris"
  | .Arc => "arc"
  | .ArcBe => "arc-be"
  | .Native => "native"

/-- unit.rs `Virtualization`. -/
inductive Virtualization where
  | Vm | Container | Qemu | Kvm | Amazon | Zvm | Vmware | Microsoft | Oracle
  | Powervm | Xen | Bochs | Uml | Bhyve | Qnx | Apple | Sre | Openvz | Lxc
  | LxcLibvirt | SystemdNspawn | Docker | Podman | Rkt | Wsl | Proot | Pouch
  | Acrn | PrivateUsers
  deriving DecidableEq, Repr

/-- unit.rs `Display for Virtualization`. -/
def Virtualization.fmt : Virtualization → String
  | .Vm => "vm"
  | .Container => "container"
  | .Qemu => "qemu"
  | .Kvm => "kvm"
  | .Amazon => "amazon"
  | .Zvm => "zvm"
  | .Vmware => "vmware"
  | .Microsoft => "microsoft"
  | .Oracle => "oracle"
  | .Powervm => "powervm"
  | .Xen => "xen"
  | .Bochs => "bochs"
  | .Uml => "uml"
  | .Bhyve => "bhyve"
  | .Qnx => "qnx"
  | .Apple => "apple"
  | .Sre => "sre"
  | .Openvz => "openvz"
  | .Lxc => "lxc"
  | .LxcLibvirt => "lxc-libvirt"
  | .SystemdNspawn => "systemd-nspawn"
  | .Docker => "docker"
  | .Podman => "podman"
  | .Rkt => "rkt"
  | .Wsl => "wsl"
  | .Proot => "proot"
  | .Pouch => "pouch"
  | .Acrn => "acrn"
  | .PrivateUsers => "private-users"

/-- exec.rs `Exec`: the execution-environment sub-record. `PathBuf` fields are
modelled as the strings their `display()` renders. All fields default absent. -/
structure Exec where
  working_directory : Option String := none
  root_directory : Option String := none
  root_image : Option String := none
  root_image_options : Option (List String) := none
  root_verity : Option String := none
  root_hash : Option String := none
  root_hash_signature : Option String := none
  root_hash_signature_key : Option String := none
  root_hash_signature_pcr_private_key : Option String := none
  root_hash_signature_pcr_public_key : Option String := none
  root_ephemeral : Option Bool := none
  user : Option String := none
  group : Option String := none
  supplementary_groups : Option (List String) := none
  pam_name : Option String := none
  environment : Option (List String) := none
  environment_file : Option (List String) := none
  pass_environment : Option (List String) := none
  unset_environment : Option (List String) := none
  limit_cpu : Option String := none
  limit_fsize : Option String := none
  no_new_privileges : Option Bool := none
  private_tmp : Option Bool := none
  private_devices : Option Bool := none
  protect_kernel_tunables : Option Bool := none
  protect_kernel_modules : Option Bool := none
  protect_control_groups : Option Bool := none
  capability_bounding_set : Option (List String) := none
  ambient_capabilities : Option (List String) := none
  nice : Option Int := none
  oom_score_adjust : Option Int := none
  read_write_paths : Option (List String) := none
  read_only_paths : Option (List String) := none
  inaccessible_paths : Option (List String) := none
  private_network : Option Bool := none
  network_namespace_path : Option String := none

/-- exec.rs `Display for Exec`: render the exec fields in source order. -/
def Exec.fmt (e : Exec) : String :=
  write_option e.working_directory "WorkingDirectory" ++
  write_option e.root_directory "RootDirectory" ++
  write_option e.root_image "RootImage" ++
  write_vec e.root_image_options "RootImageOptions" ++
  write_option e.root_verity "RootVerity" ++
  write_option e.root_hash "RootHash" ++
  write_option e.root_hash_signature "RootHashSignature" ++
  write_option e.root_hash_signature_key "RootHashSignature" ++
  write_option e.root_hash_signature_pcr_private_key "RootHashSignature" ++
  write_option e.root_hash_signature_pcr_public_key "RootHashSignature" ++
  write_bool e.root_ephemeral "RootEphemeral" ++
  write_option e.user "User" ++
  write_option e.group "Group" ++
  write_vec e.supplementary_groups "SupplementaryGroups" ++
  write_option e.pam_name "PAMName" ++
  write_vec e.environment "Environment" ++
  write_vec_multi e.environment_file "EnvironmentFile" ++
  write_vec e.pass_environment "PassEnvironment" ++
  write_vec e.unset_environment "UnsetEnvironment" ++
  write_option e.limit_cpu "LimitCPU" ++
  write_option e.limit_fsize "LimitFSIZE" ++
  write_bool e.no_new_privileges "NoNewPrivileges" ++
  write_bool e.private_tmp "PrivateTmp" ++
  write_bool e.private_devices "PrivateDevices" ++
  write_bool e.protect_kernel_tunables "ProtectKernelTunables" ++
  write_bool e.protect_kernel_modules "ProtectKernelModules" ++
  write_bool e.protect_control_groups "ProtectControlGroups" ++
  write_vec e.capability_bounding_set "CapabilityBoundingSet" ++
  write_vec e.ambient_capabilities "AmbientCapabilities" ++
  write_option (e.nice.map toString) "Nice" ++
  write_option (e.oom_score_adjust.map toString) "OOMScoreAdjust" ++
  write_vec_multi e.read_write_paths "ReadWritePaths" ++
  write_vec_multi e.read_only_paths "ReadOnlyPaths" ++
  write_vec_multi e.inaccessible_paths "InaccessiblePaths" ++
  write_bool e.private_network "PrivateNetwork" ++
  write_option e.network_namespace_path "NetworkNamespacePath"

/-- Run a per-element check over a list, stopping at the first failure
(the shape of each validation `for` loop with early `return Err`). -/
def checkEach (f : α → Except String Unit) : List α → Except String Unit
  | [] => .ok ()
  | x :: rest =>
    match f x with
    | .ok _ => checkEach f rest
    | .error e => .error e

/-- `checkEach` over an optional list: absent list passes vacuously. -/
def checkOptList (field : Option (List α)) (f : α → Except String Unit) :
    Except String Unit :=
  match field with
  | some xs => checkEach f xs
  | none => .ok ()

/-- exec.rs validate: nice level must lie in [-20, 19]. -/
def checkNice (ex : Exec) : Except String Unit :=
  match ex.nice with
  | some n =>
    if n < -20 ∨ n > 19 then
      .error ("Nice level " ++ toString n ++ " must be between -20 and 19")
    else .ok ()
  | none => .ok ()

/-- exec.rs validate: OOM score adjustment must lie in [-1000, 1000]. -/
def checkOomScoreAdjust (ex : Exec) : Except String Unit :=
  match ex.oom_score_adjust with
  | some score =>
    if score < -1000 ∨ score > 1000 then
      .error ("OOMScoreAdjust " ++ toString score ++ " must be between -1000 and 1000")
    else .ok ()
  | none => .ok ()

/-- exec.rs validate: one environment entry must contain `=` and, splitting at
the first `=` (Rust `splitn(2, c)`), have a non-empty key part. -/
def checkEnvEntry (env_var : String) : Except String Unit :=
  if '=' ∉ env_var.data then
    .error ("Environment variable '" ++ env_var ++ "' must be in KEY=VALUE format")
  else
    let parts := splitFirst env_var.data '='
    if parts.length ≠ 2 ∨ parts.headD [] = [] then
      .error ("Invalid environment variable format: '" ++ env_var ++ "'")
    else .ok ()

/-- exec.rs validate: a PassEnvironment / UnsetEnvironment name must not
contain `=`. -/
def checkNoEq (label : String) (var : String) : Except String Unit :=
  if '=' ∈ var.data then
    .error (label ++ " variable '" ++ var ++ "' should not contain '='")
  else .ok ()

/-- exec.rs validate: a capability token must start with `CAP_`. -/
def checkCap (cap : String) : Except String Unit :=
  if ¬ cap.startsWith "CAP_" then
    .error ("Capability '" ++ cap ++ "' must start with 'CAP_'")
  else .ok ()

/-- exec.rs validate: a supplementary group name must be non-empty. -/
def checkGroupName (group : String) : Except String Unit :=
  if group = "" then .error "Supplementary group names cannot be empty"
  else .ok ()

/-- exec.rs validate: a root-image option must be non-empty. -/
def checkImageOption (opt : String) : Except String Unit :=
  if opt = "" then .error "RootImageOptions cannot contain empty strings"
  else .ok ()

/-- exec.rs `Exec::validate`: the checks in source order, first failure wins. -/
def Exec.validate (ex : Exec) : Except String Unit := do
  checkNice ex
  checkOomScoreAdjust ex
  checkOptList ex.environment checkEnvEntry
  checkOptList ex.pass_environment (checkNoEq "PassEnvironment")
  checkOptList ex.unset_environment (checkNoEq "UnsetEnvironment")
  checkOptList ex.capability_bounding_set checkCap
  checkOptList ex.ambient_capabilities checkCap
  checkOptList ex.supplementary_groups checkGroupName
  checkOptList ex.root_image_options checkImageOption

/-- service.rs `Service`: the [Service] section record. -/
structure Service where
  service_type : Option ServiceType := none
  exit_type : Option ExitType := none
  remain_after_exit : Option Bool := none
  guess_main_pid : Option Bool := none
  pid_file : Option String := none
  bus_name : Option String := none
  exec_start : Option (List String) := none
  exec_start_pre : Option (List String) := none
  exec_start_post : Option (List String) := none
  exec_condition : Option (List String) := none
  exec_reload : Option (List String) := none
  exec_stop : Option (List String) := none
  exec_stop_post : Option (List String) := none
  restart_sec : Option Nat := none
  restart_steps : Option Nat := none
  restart_max_delay_sec : Option String := none
  timeout_start_sec : Option String := none
  timeout_stop_sec : Option String := none
  timeout_abort_sec : Option String := none
  timeout_sec : Option String := none
  timeout_start_failure_mode : Option TimeoutFailureMode := none
  timeout_stop_failure_mode : Option TimeoutFailureMode := none
  runtime_max_sec : Option String := none
  runtime_randomized_extra_sec : Option String := none
  watchdog_sec : Option String := none
  restart : Option RestartType := none
  restart_mode : Option RestartMode := none
  success_exit_status : Option (List String) := none
  restart_prevent_exit_status : Option (List String) := none
  restart_force_exit_status : Option (List String) := none
  root_directory_start_only : Option Bool := none
  non_blocking : Option Bool := none
  notify_access : Option NotifyAccess := none
  sockets : Option (List String) := none
  file_descriptor_store_max : Option Nat := none
  file_descriptor_store_preserve : Option String := none
  usb_function_descriptors : Option String := none
  usb_function_strings : Option String := none
  oom_policy : Option OomPolicy := none
  open_file : Option (List String) := none
  reload_signal : Option String := none
  exec : Option Exec := none

/-- The field lines of the [Service] section: everything `Display for
Service` writes after the header, in source order. Note that the source
renders the exec_* command lists through `write_vec!` (space-joined) and
never renders the embedded `exec` sub-record. -/
def Service.fmtFields (s : Service) : String :=
  write_option (s.service_type.map ServiceType.fmt) "Type" ++
  write_option (s.exit_type.map ExitType.fmt) "ExitType" ++
  write_bool s.remain_after_exit "RemainAfterExit" ++
  write_bool s.guess_main_pid "GuessMainPID" ++
  write_option s.pid_file "PIDFile" ++
  write_option s.bus_name "BusName" ++
  write_vec s.exec_condition "ExecCondition" ++
  write_vec s.exec_start_pre "ExecStartPre" ++
  write_vec s.exec_start "ExecStart" ++
  write_vec s.exec_start_post "ExecStartPost" ++
  write_vec s.exec_reload "ExecReload" ++
  write_vec s.exec_stop "ExecStop" ++
  write_vec s.exec_stop_post "ExecStopPost" ++
  write_option (s.restart.map RestartType.fmt) "Restart" ++
  write_option (s.restart_mode.map RestartMode.fmt) "RestartMode" ++
  write_option (s.restart_sec.map toString) "RestartSec" ++
  write_option (s.restart_steps.map toString) "RestartSteps" ++
  write_option s.restart_max_delay_sec "RestartMaxDelaySec" ++
  write_vec s.success_exit_status "SuccessExitStatus" ++
  write_vec s.restart_prevent_exit_status "RestartPreventExitStatus" ++
  write_vec s.restart_force_exit_status "RestartForceExitStatus" ++
  write_option s.timeout_start_sec "TimeoutStartSec" ++
  write_option s.timeout_stop_sec "TimeoutStopSec" ++
  write_option s.timeout_abort_sec "TimeoutAbortSec" ++
  write_option s.timeout_sec "TimeoutSec" ++
  write_option (s.timeout_start_failure_mode.map TimeoutFailureMode.fmt)
    "TimeoutStartFailureMode" ++
  write_option (s.timeout_stop_failure_mode.map TimeoutFailureMode.fmt)
    "TimeoutStopFailureMode" ++
  write_option s.runtime_max_sec "RuntimeMaxSec" ++
  write_option s.runtime_randomized_extra_sec "RuntimeRandomizedExtraSec" ++
  write_option s.watchdog_sec "WatchdogSec" ++
  write_bool s.root_directory_start_only "RootDirectoryStartOnly" ++
  write_bool s.non_blocking "NonBlocking" ++
  write_option (s.notify_access.map NotifyAccess.fmt) "NotifyAccess" ++
  write_vec s.sockets "Sockets" ++
  write_option (s.file_descriptor_store_max.map toString) "FileDescriptorStoreMax" ++
  write_option s.file_descriptor_store_preserve "FileDescriptorStorePreserve" ++
  write_option s.usb_function_descriptors "USBFunctionDescriptors" ++
  write_option s.usb_function_strings "USBFunctionStrings" ++
  write_option (s.oom_policy.map OomPolicy.fmt) "OOMPolicy" ++
  write_vec s.open_file "OpenFile" ++
  write_option s.reload_signal "ReloadSignal"

/-- service.rs `Display for Service`: the `[Service]` header line, then the
field lines. -/
def Service.fmt (s : Service) : String :=
  "[Service]\n" ++ Service.fmtFields s

/-- service.rs `Service::validate`: returns Ok unconditionally ("all
validations are now compile-time enforced via enum types"). -/
def Service.validate (_s : Service) : Except String Unit := .ok ()

/-- install.rs `Install`: the [Install] section record. -/
structure Install where
  «alias» : Option (List String) := none
  wanted_by : Option (List String) := none
  required_by : Option (List String) := none
  upheld_by : Option (List String) := none
  also : Option (List String) := none
  default_instance : Option String := none

/-- The field lines of the [Install] section, in source order. -/
def Install.fmtFields (i : Install) : String :=
  write_vec i.«alias» "Alias" ++
  write_vec i.wanted_by "WantedBy" ++
  write_vec i.required_by "RequiredBy" ++
  write_vec i.upheld_by "UpheldBy" ++
  write_vec i.also "Also" ++
  write_option i.default_instance "DefaultInstance"

/-- install.rs `Display for Install`: the `[Install]` header line, then the
field lines. -/
def Install.fmt (i : Install) : String :=
  "[Install]\n" ++ Install.fmtFields i

/-- unit.rs `Unit`: the [Unit] section record (named `UnitSection` here since
`Unit` is Lean's built-in unit type). `PathBuf` modelled as `String`. -/
structure UnitSection where
  description : Option String := none
  documentation : Option (List String) := none
  wants : Option (List String) := none
  requires : Option (List String) := none
  requisite : Option (List String) := none
  binds_to : Option (List String) := none
  part_of : Option (List String) := none
  upholds : Option (List String) := none
  conflicts : Option (List String) := none
  before : Option (List String) := none
  after : Option (List String) := none
  on_failure : Option (List String) := none
  on_success : Option (List String) := none
  propagates_reload_to : Option (List String) := none
  reload_propagated_from : Option (List String) := none
  propagates_stop_to : Option (List String) := none
  stop_propagated_from : Option (List String) := none
  joins_namespace_of : Option (List String) := none
  requires_mounts_for : Option (List String) := none
  wants_mounts_for : Option (List String) := none
  on_success_job_mode : Option JobMode := none
  on_failure_job_mode : Option JobMode := none
  ignore_on_isolate : Option Bool := none
  stop_when_unneeded : Option Bool := none
  refuse_manual_start : Option Bool := none
  refuse_manual_stop : Option Bool := none
  allow_isolate : Option Bool := none
  default_dependencies : Option Bool := none
  survive_final_kill_signal : Option Bool := none
  collect_mode : Option CollectMode := none
  failure_action : Option Action := none
  success_action : Option Action := none
  failure_action_exit_status : Option Nat := none
  success_action_exit_status : Option Nat := none
  job_timeout_sec : Option Nat := none
  job_running_timeout_sec : Option Nat := none
  job_timeout_action : Option Action := none
  job_timeout_reboot_argument : Option String := none
  start_limit_interval_sec : Option Nat := none
  start_limit_burst : Option Nat := none
  start_limit_action : Option Action := none
  reboot_argument : Option String := none
  source_path : Option String := none
  condition_architecture : Option Architecture := none
  condition_firmware : Option String := none
  condition_virtualization : Option Virtualization := none
  condition_host : Option String := none
  condition_kernel_command_line : Option String := none
  condition_kernel_version : Option String := none
  condition_credential : Option String := none
  condition_environment : Option String := none
  condition_security : Option (List SecurityTech) := none
  condition_capability : Option (List String) := none
  condition_ac_power : Option Bool := none
  condition_needs_update : Option String := none
  condition_first_boot : Option Bool := none
  condition_path_exists : Option String := none
  condition_path_exists_glob : Option String := none
  condition_path_is_directory : Option String := none
  condition_path_is_symbolic_link : Option String := none
  condition_path_is_mount_point : Option String := none
  condition_path_is_read_write : Option String := none
  condition_path_is_encrypted : Option String := none
  condition_directory_not_empty : Option String := none
  condition_file_not_empty : Option String := none
  condition_file_is_executable : Option String := none
  condition_user : Option String := none
  condition_group : Option String := none
  condition_control_group_controller : Option (List String) := none
  condition_memory : Option String := none
  condition_cpus : Option String := none
  condition_cpu_feature : Option (List String) := none
  condition_os_release : Option String := none
  condition_memory_pressure : Option String := none
  condition_cpu_pressure : Option String := none
  condition_io_pressure : Option String := none
  assert_architecture : Option Architecture := none
  assert_firmware : Option String := none
  assert_virtualization : Option Virtualization := none
  assert_host : Option String := none
  assert_kernel_command_line : Option String := none
  assert_kernel_version : Option String := none
  assert_credential : Option String := none
  assert_environment : Option String := none
  assert_security : Option (List SecurityTech) := none
  assert_capability : Option (List String) := none
  assert_ac_power : Option Bool := none
  assert_needs_update : Option String := none
  assert_first_boot : Option Bool := none
  assert_path_exists : Option String := none
  assert_path_exists_glob : Option String := none
  assert_path_is_directory : Option String := none
  assert_path_is_symbolic_link : Option String := none
  assert_path_is_mount_point : Option String := none
  assert_path_is_read_write : Option String := none
  assert_path_is_encrypted : Option String := none
  assert_directory_not_empty : Option String := none
  assert_file_not_empty : Option String := none
  assert_file_is_executable : Option String := none
  assert_user : Option String := none
  assert_group : Option String := none
  assert_control_group_controller : Option (List String) := none
  assert_memory : Option String := none
  assert_cpus : Option String := none
  assert_cpu_feature : Option (List String) := none
  assert_os_release : Option String := none
  assert_memory_pressure : Option String := none
  assert_cpu_pressure : Option String := none
  assert_io_pressure : Option String := none

/-- The field lines of the [Unit] section, in source order. -/
def UnitSection.fmtFields (u : UnitSection) : String :=
  write_option u.description "Description" ++
  write_vec u.documentation "Documentation" ++
  write_vec u.wants "Wants" ++
  write_vec u.requires "Requires" ++
  write_vec u.requisite "Requisite" ++
  write_vec u.binds_to "BindsTo" ++
  write_vec u.part_of "PartOf" ++
  write_vec u.upholds "Upholds" ++
  write_vec u.conflicts "Conflicts" ++
  write_vec u.before "Before" ++
  write_vec u.after "After" ++
  write_vec u.on_failure "OnFailure" ++
  write_vec u.on_success "OnSuccess" ++
  write_vec u.propagates_reload_to "PropagatesReloadTo" ++
  write_vec u.reload_propagated_from "ReloadPropagatedFrom" ++
  write_vec u.propagates_stop_to "PropagatesStopTo" ++
  write_vec u.stop_propagated_from "StopPropagatedFrom" ++
  write_vec u.joins_namespace_of "JoinsNamespaceOf" ++
  write_vec u.requires_mounts_for "RequiresMountsFor" ++
  write_vec u.wants_mounts_for "WantsMountsFor" ++
  write_option (u.on_success_job_mode.map JobMode.fmt) "OnSuccessJobMode" ++
  write_option (u.on_failure_job_mode.map JobMode.fmt) "OnFailureJobMode" ++
  write_bool u.ignore_on_isolate "IgnoreOnIsolate" ++
  write_bool u.stop_when_unneeded "StopWhenUnneeded" ++
  write_bool u.refuse_manual_start "RefuseManualStart" ++
  write_bool u.refuse_manual_stop "RefuseManualStop" ++
  write_bool u.allow_isolate "AllowIsolate" ++
  write_bool u.default_dependencies "DefaultDependencies" ++
  write_bool u.survive_final_kill_signal "SurviveFinalKillSignal" ++
  write_option (u.collect_mode.map CollectMode.fmt) "CollectMode" ++
  write_option (u.failure_action.map Action.fmt) "FailureAction" ++
  write_option (u.success_action.map Action.fmt) "SuccessAction" ++
  write_option (u.failure_action_exit_status.map toString) "FailureActionExitStatus" ++
  write_option (u.success_action_exit_status.map toString) "SuccessActionExitStatus" ++
  write_option (u.job_timeout_sec.map toString) "JobTimeoutSec" ++
  write_option (u.job_running_timeout_sec.map toString) "JobRunningTimeoutSec" ++
  write_option (u.job_timeout_action.map Action.fmt) "JobTimeoutAction" ++
  write_option u.job_timeout_reboot_argument "JobTimeoutRebootArgument" ++
  write_option (u.start_limit_interval_sec.map toString) "StartLimitIntervalSec" ++
  write_option (u.start_limit_burst.map toString) "StartLimitBurst" ++
  write_option (u.start_limit_action.map Action.fmt) "StartLimitAction" ++
  write_option u.reboot_argument "RebootArgument" ++
  write_option u.source_path "SourcePath" ++
  write_option (u.condition_architecture.map Architecture.fmt) "ConditionArchitecture" ++
  write_option u.condition_firmware "ConditionFirmware" ++
  write_option (u.condition_virtualization.map Virtualization.fmt) "ConditionVirtualization" ++
  write_option u.condition_host "ConditionHost" ++
  write_option u.condition_kernel_command_line "ConditionKernelCommandLine" ++
  write_option u.condition_kernel_version "ConditionKernelVersion" ++
  write_option u.condition_credential "ConditionCredential" ++
  write_option u.condition_environment "ConditionEnvironment" ++
  write_vec (u.condition_security.map (·.map SecurityTech.fmt)) "ConditionSecurity" ++
  write_vec u.condition_capability "ConditionCapability" ++
  write_bool u.condition_ac_power "ConditionACPower" ++
  write_option u.condition_needs_update "ConditionNeedsUpdate" ++
  write_bool u.condition_first_boot "ConditionFirstBoot" ++
  write_option u.condition_path_exists "ConditionPathExists" ++
  write_option u.condition_path_exists_glob "ConditionPathExistsGlob" ++
  write_option u.condition_path_is_directory "ConditionPathIsDirectory" ++
  write_option u.condition_path_is_symbolic_link "ConditionPathIsSymbolicLink" ++
  write_option u.condition_path_is_mount_point "ConditionPathIsMountPoint" ++
  write_option u.condition_path_is_read_write "ConditionPathIsReadWrite" ++
  write_option u.condition_path_is_encrypted "ConditionPathIsEncrypted" ++
  write_option u.condition_directory_not_empty "ConditionDirectoryNotEmpty" ++
  write_option u.condition_file_not_empty "ConditionFileNotEmpty" ++
  write_option u.condition_file_is_executable "ConditionFileIsExecutable" ++
  write_option u.condition_user "ConditionUser" ++
  write_option u.condition_group "ConditionGroup" ++
  write_vec u.condition_control_group_controller "ConditionControlGroupController" ++
  write_option u.condition_memory "ConditionMemory" ++
  write_option u.condition_cpus "ConditionCPUs" ++
  write_vec u.condition_cpu_feature "ConditionCPUFeature" ++
  write_option u.condition_os_release "ConditionOSRelease" ++
  write_option u.condition_memory_pressure "ConditionMemoryPressure" ++
  write_option u.condition_cpu_pressure "ConditionCPUPressure" ++
  write_option u.condition_io_pressure "ConditionIOPressure" ++
  write_option (u.assert_architecture.map Architecture.fmt) "AssertArchitecture" ++
  write_option u.assert_firmware "AssertFirmware" ++
  write_option (u.assert_virtualization.map Virtualization.fmt) "AssertVirtualization" ++
  write_option u.assert_host "AssertHost" ++
  write_option u.assert_kernel_command_line "AssertKernelCommandLine" ++
  write_option u.assert_kernel_version "AssertKernelVersion" ++
  write_option u.assert_credential "AssertCredential" ++
  write_option u.assert_environment "AssertEnvironment" ++
  write_vec (u.assert_security.map (·.map SecurityTech.fmt)) "AssertSecurity" ++
  write_vec u.assert_capability "AssertCapability" ++
  write_bool u.assert_ac_power "AssertACPower" ++
  write_option u.assert_needs_update "AssertNeedsUpdate" ++
  write_bool u.assert_first_boot "AssertFirstBoot" ++
  write_option u.assert_path_exists "AssertPathExists" ++
  write_option u.assert_path_exists_glob "AssertPathExistsGlob" ++
  write_option u.assert_path_is_directory "AssertPathIsDirectory" ++
  write_option u.assert_path_is_symbolic_link "AssertPathIsSymbolicLink" ++
  write_option u.assert_path_is_mount_point "AssertPathIsMountPoint" ++
  write_option u.assert_path_is_read_write "AssertPathIsReadWrite" ++
  write_option u.assert_path_is_encrypted "AssertPathIsEncrypted" ++
  write_option u.assert_directory_not_empty "AssertDirectoryNotEmpty" ++
  write_option u.assert_file_not_empty "AssertFileNotEmpty" ++
  write_option u.assert_file_is_executable "AssertFileIsExecutable" ++
  write_option u.assert_user "AssertUser" ++
  write_option u.assert_group "AssertGroup" ++
  write_vec u.assert_control_group_controller "AssertControlGroupController" ++
  write_option u.assert_memory "AssertMemory" ++
  write_option u.assert_cpus "AssertCPUs" ++
  write_vec u.assert_cpu_feature "AssertCPUFeature" ++
  write_option u.assert_os_release "AssertOSRelease" ++
  write_option u.assert_memory_pressure "AssertMemoryPressure" ++
  write_option u.assert_cpu_pressure "AssertCPUPressure" ++
  write_option u.assert_io_pressure "AssertIOPressure"

/-- unit.rs `Display for Unit`: the `[Unit]` header line, then the field
lines. -/
def UnitSection.fmt (u : UnitSection) : String :=
  "[Unit]\n" ++ UnitSection.fmtFields u

/-- mod.rs `Config`: the top-level configuration record. -/
structure Config where
  name : String
  unit : UnitSection := {}
  service : Service := {}
  install : Install := {}

/-- mod.rs `Display for Config`: Unit, then Service, then Install. -/
def Config.fmt (c : Config) : String :=
  UnitSection.fmt c.unit ++ Service.fmt c.service ++ Install.fmt c.install

/-- mod.rs `Config::unit_name`: `<name>.service`. -/
def Config.unit_name (c : Config) : String :=
  c.name ++ ".service"

/-- mod.rs `SERVICE_FILE_PERMISSIONS = 0o644`. -/
def SERVICE_FILE_PERMISSIONS : Nat := 0o644

/-- mod.rs `Systemd::config_path`: `/etc/systemd/system/<name>.service`. -/
def Systemd.config_path (cfg : Config) : String :=
  "/etc/systemd/system/" ++ Config.unit_name cfg

/-- mod.rs `Systemd::install`: refuse when the target exists (validation
error, no side effect); otherwise create the file, write the rendered
document, set permissions 0644, run `enable <unit>` then `daemon-reload`,
surfacing a non-zero exit of either as a command error with stderr. Returns
the result together with the ordered trace of side effects performed. -/
def Systemd.install (cfg : Config) (w : World) : Except Error Unit × List Event :=
  let dst := Systemd.config_path cfg
  if w.fileExists then
    (.error (.ValidationError ("Service file '" ++ dst ++ "' already exists")), [])
  else
    match w.createResult with
    | .error e => (.error (.IoError e), [.createFile dst])
    | .ok _ =>
      match w.writeResult with
      | .error e => (.error (.IoError e),
          [.createFile dst, .writeFile dst (Config.fmt cfg)])
      | .ok _ =>
        match w.permResult with
        | .error e => (.error (.IoError e),
            [.createFile dst, .writeFile dst (Config.fmt cfg),
             .setPermissions dst SERVICE_FILE_PERMISSIONS])
        | .ok _ =>
          let pre : List Event :=
            [.createFile dst, .writeFile dst (Config.fmt cfg),
             .setPermissions dst SERVICE_FILE_PERMISSIONS,
             .runCommand ["enable", Config.unit_name cfg]]
          if w.enableResult.success then
            if w.reloadResult.success then
              (.ok (), pre ++ [.runCommand ["daemon-reload"]])
            else
              (.error (.CommandError
                  ("Failed to reload systemd daemon: " ++ w.reloadResult.stderr)),
               pre ++ [.runCommand ["daemon-reload"]])
          else
            (.error (.CommandError
                ("Failed to enable service: " ++ w.enableResult.stderr)), pre)

/-- mod.rs `Systemd::uninstall`: run `disable <unit>` (non-zero exit is a
command error with stderr, leaving the file in place), then delete the unit
file (a removal failure surfaces as an I/O error). -/
def Systemd.uninstall (cfg : Config) (w : World) : Except Error Unit × List Event :=
  if w.disableResult.success then
    match w.removeResult with
    | .ok _ =>
      (.ok (), [.runCommand ["disable", Config.unit_name cfg],
                .removeFile (Systemd.config_path cfg)])
    | .error e =>
      (.error (.IoError e), [.runCommand ["disable", Config.unit_name cfg],
                             .removeFile (Systemd.config_path cfg)])
  else
    (.error (.CommandError ("Failed to disable service: " ++ w.disableResult.stderr)),
     [.runCommand ["disable", Config.unit_name cfg]])

/-- mod.rs `Systemd::status`: query `is-active <unit>`; on success interpret
the trimmed stdout token ("active"/"activating" → Running, "failed" →
Failed, "inactive" → secondary `list-unit-files -t service <unit>` query
whose stdout decides Stopped vs NotInstalled, anything else → NotInstalled);
a non-zero exit of either invocation is a command error with stderr. -/
def Systemd.status (cfg : Config) (w : World) : Except Error Status :=
  if w.isActiveResult.success then
    let st := strTrim w.isActiveResult.stdout
    if st = "active" then .ok .Running
    else if st = "inactive" then
      if w.listUnitFilesResult.success then
        if containsSub w.listUnitFilesResult.stdout (Config.unit_name cfg) then
          .ok .Stopped
        else .ok .NotInstalled
      else
        .error (.CommandError
          ("Failed to list unit files: " ++ w.listUnitFilesResult.stderr))
    else if st = "activating" then .ok .Running
    else if st = "failed" then .ok .Failed
    else .ok .NotInstalled
  else
    .error (.CommandError
      ("Failed to get service status: " ++ w.isActiveResult.stderr))

deriving instance DecidableEq for Except

/-- A concrete configuration with service name "foo" and all sections at
their defaults, used to instantiate theorems. -/
def fooConfig : Config := { name := "foo" }

/-- A world in which every file-system operation and every command
invocation succeeds (with empty captured output). -/
def okWorld : World :=
  { fileExists := false
    createResult := .ok ()
    writeResult := .ok ()
    permResult := .ok ()
    enableResult := ⟨true, "", ""⟩
    reloadResult := ⟨true, "", ""⟩
    disableResult := ⟨true, "", ""⟩
    removeResult := .ok ()
    isActiveResult := ⟨true, "", ""⟩
    listUnitFilesResult := ⟨true, "", ""⟩ }

/-- A world whose `is-active` query reports `inactive` and whose
`list-unit-files` output lists `foo.service`. -/
def inactiveListedWorld : World :=
  { okWorld with
    isActiveResult := ⟨true, "inactive\n", ""⟩
    listUnitFilesResult := ⟨true, "foo.service enabled", ""⟩ }

theorem checkEach_ok (f : α → Except String Unit) (l : List α) :
    checkEach f l = .ok () ↔ ∀ x ∈ l, f x = .ok () := by
  induction l with
  | nil => simp [checkEach]
  | cons x xs ih =>
    cases hf : f x with
    | ok u =>
      cases u
      simp [checkEach, hf, ih]
    | error e =>
      simp only [checkEach, hf]
      constructor
      · intro h; cases h
      · intro h
        have := h x (List.mem_cons_self x xs)
        rw [hf] at this; cases this

theorem splitFirst_mem (cs : List Char) (c : Char) (h : c ∈ cs) :
    ∃ pre post, splitFirst cs c = [pre, post] ∧ cs = pre ++ c :: post ∧ c ∉ pre := by
  induction cs with
  | nil => cases h
  | cons x xs ih =>
    by_cases hx : x = c
    · subst hx
      exact ⟨[], xs, by simp [splitFirst], rfl, by simp⟩
    · have hmem : c ∈ xs := by
        cases h with
        | head => exact absurd rfl hx
        | tail _ h2 => exact h2
      obtain ⟨pre, post, hs, hd, hp⟩ := ih hmem
      refine ⟨x :: pre, post, ?_, by simp [hd], ?_⟩
      · simp [splitFirst, hx, hs]
      · intro hc
        rcases List.mem_cons.mp hc with h1 | h2
        · exact hx h1.symm
        · exact hp h2

theorem splitFirst_append (k v : List Char) (c : Char) (hk : c ∉ k) :
    splitFirst (k ++ c :: v) c = [k, v] := by
  induction k with
  | nil => simp [splitFirst]
  | cons x xs ih =>
    have hx : x ≠ c := fun h => hk (by simp [h])
    have hxs : c ∉ xs := fun h => hk (List.mem_cons_of_mem _ h)
    simp [splitFirst, hx, ih hxs]

theorem checkEnvEntry_ok (s : String) :
    checkEnvEntry s = .ok () ↔
      ∃ k v : List Char, s.data = k ++ '=' :: v ∧ k ≠ [] ∧ '=' ∉ k := by
  by_cases hm : ('=' : Char) ∈ s.data
  · obtain ⟨pre, post, hsplit, hdecomp, hpre⟩ := splitFirst_mem s.data '=' hm
    constructor
    · intro h
      refine ⟨pre, post, hdecomp, ?_, hpre⟩
      intro hnil
      subst hnil
      simp only [checkEnvEntry, hm, not_true_eq_false, if_false, hsplit] at h
      simp at h
    · rintro ⟨k, v, hd, hk, hkm⟩
      have hkv : splitFirst s.data '=' = [k, v] := by
        rw [hd]; exact splitFirst_append k v '=' hkm
      simp only [checkEnvEntry, hm, not_true_eq_false, if_false, hkv]
      simp [hk]
  · constructor
    · intro h
      simp only [checkEnvEntry, hm, not_false_eq_true, if_true] at h
      cases h
    · rintro ⟨k, v, hd, hk, hkm⟩
      exact absurd (hd ▸ (by simp : ('=' : Char) ∈ k ++ '=' :: v)) hm

set_option maxRecDepth 8000 in
/-- C7: the assembled document is the concatenation of the Unit, Service and
Install section renderings in that order; each section rendering begins with
its own header line even with zero populated fields; and the all-default
configuration named "foo" renders to exactly the three header lines. -/
theorem C7_document_assembly :
    (∀ cfg : Config, Config.fmt cfg =
        UnitSection.fmt cfg.unit ++ Service.fmt cfg.service ++ Install.fmt cfg.install) ∧
    (∀ u : UnitSection, UnitSection.fmt u = "[Unit]\n" ++ UnitSection.fmtFields u) ∧
    (∀ s : Service, Service.fmt s = "[Service]\n" ++ Service.fmtFields s) ∧
    (∀ i : Install, Install.fmt i = "[Install]\n" ++ Install.fmtFields i) ∧
    Config.fmt { name := "foo" } = "[Unit]\n[Service]\n[Install]\n" :=
  ⟨fun _ => rfl, fun _ => rfl, fun _ => rfl, fun _ => rfl, rfl⟩

/-- C10: `Service::validate` succeeds unconditionally; in particular a
Service whose embedded exec sub-record `Exec::validate` rejects (nice = 25)
still passes `Service::validate`. -/
theorem C10_service_validate_unconditional :
    (∀ s : Service, Service.validate s = .ok ()) ∧
    (∃ msg, Exec.validate { nice := some 25 } = .error msg) ∧
    Service.validate { exec := some { nice := some 25 } } = .ok () :=
  ⟨fun _ => rfl, ⟨"Nice level 25 must be between -20 and 19", by decide⟩, rfl⟩

/-- C2 (divergence evidence): for each of the seven exec_* command-list
fields, rendering the list `["a", "b"]` produces a single space-joined
`Key=a b` line, not two `Key=a` / `Key=b` lines. -/
theorem C2_exec_lists_space_joined :
    Service.fmt { exec_start := some ["a", "b"] } = "[Service]\nExecStart=a b\n" ∧
    Service.fmt { exec_start_pre := some ["a", "b"] } = "[Service]\nExecStartPre=a b\n" ∧
    Service.fmt { exec_start_post := some ["a", "b"] } = "[Service]\nExecStartPost=a b\n" ∧
    Service.fmt { exec_condition := some ["a", "b"] } = "[Service]\nExecCondition=a b\n" ∧
    Service.fmt { exec_reload := some ["a", "b"] } = "[Service]\nExecReload=a b\n" ∧
    Service.fmt { exec_stop := some ["a", "b"] } = "[Service]\nExecStop=a b\n" ∧
    Service.fmt { exec_stop_post := some ["a", "b"] } = "[Service]\nExecStopPost=a b\n" :=
  ⟨rfl, rfl, rfl, rfl, rfl, rfl, rfl⟩

/-- C3 (divergence evidence): a Service whose embedded exec sub-record is
present with populated fields renders to a bare `[Service]` header — none of
the exec key=value lines appear — even though `Exec`'s own renderer would
produce them. -/
theorem C3_exec_subrecord_not_rendered :
    Service.fmt { exec := some { working_directory := some "/srv",
                                 user := some "bob",
                                 environment := some ["A=1"] } } = "[Service]\n" ∧
    Exec.fmt { working_directory := some "/srv", user := some "bob",
               environment := some ["A=1"] } =
      "WorkingDirectory=/srv\nUser=bob\nEnvironment=A=1\n" :=
  ⟨rfl, rfl⟩

/-- C8 (counterexample): the entry "A=b=c" has a non-empty key but contains
two '=' separators, not exactly one, yet `Exec::validate` accepts it —
refuting "succeeds only if it contains exactly one '='". -/
theorem C8_exactly_one_eq_counterexample :
    Exec.validate { environment := some ["A=b=c"] } = .ok () ∧
    ("A=b=c").data.count '=' = 2 ∧
    ("A=b=c").data.takeWhile (fun c => c ≠ '=') ≠ [] := by
  refine ⟨by decide, by decide, by decide⟩

/-- C8 (amended): for an Exec record whose only populated field is the
environment list, `validate` succeeds exactly when every entry contains at
least one '=' and the text before the first '=' (the key) is non-empty;
entries with additional '=' characters after the first are accepted. -/
theorem C8_env_validation_amended (env : List String) :
    Exec.validate { environment := some env } = .ok () ↔
      ∀ s ∈ env, ∃ k v : List Char, s.data = k ++ '=' :: v ∧ k ≠ [] ∧ '=' ∉ k := by
  have key : Exec.validate { environment := some env } = .ok () ↔
      checkEach checkEnvEntry env = .ok () := by
    cases hc : checkEach checkEnvEntry env with
    | ok u =>
      cases u
      simp [Exec.validate, checkNice, checkOomScoreAdjust, checkOptList, hc,
        bind, Except.bind]
    | error e =>
      simp [Exec.validate, checkNice, checkOomScoreAdjust, checkOptList, hc,
        bind, Except.bind]
  rw [key, checkEach_ok]
  constructor
  · intro h s hs
    exact (checkEnvEntry_ok s).mp (h s hs)
  · intro h s hs
    exact (checkEnvEntry_ok s).mpr (h s hs)

/-- Witness for C8's amended theorem at the concrete entry "FOO=bar". -/
theorem C8_env_validation_amended_witness :
    Exec.validate { environment := some ["FOO=bar"] } = .ok () := by
  refine (C8_env_validation_amended ["FOO=bar"]).mpr ?_
  intro s hs
  simp only [List.mem_singleton] at hs
  subst hs
  exact ⟨['F', 'O', 'O'], ['b', 'a', 'r'], by decide, by decide, by decide⟩

/-- C9: for an Exec record whose only populated field is the nice level,
`validate` succeeds exactly when the nice level lies in [-20, 19]. -/
theorem C9_nice_range (n : Int) :
    Exec.validate { nice := some n } = .ok () ↔ (-20 ≤ n ∧ n ≤ 19) := by
  by_cases hc : n < -20 ∨ n > 19
  · simp only [Exec.validate, checkNice, checkOomScoreAdjust, checkOptList,
      hc, if_true, bind, Except.bind]
    constructor
    · intro h; cases h
    · intro h; omega
  · simp only [Exec.validate, checkNice, checkOomScoreAdjust, checkOptList,
      hc, if_false, bind, Except.bind]
    constructor
    · intro _; omega
    · intro _; trivial

/-- Witness for C9 at the concrete nice levels 19, -20 (accepted) and
25, -21 (rejected). -/
theorem C9_nice_range_witness :
    Exec.validate { nice := some 19 } = .ok () ∧
    Exec.validate { nice := some (-20) } = .ok () ∧
    Exec.validate { nice := some 25 } ≠ .ok () ∧
    Exec.validate { nice := some (-21) } ≠ .ok () := by
  refine ⟨(C9_nice_range 19).mpr (by omega), (C9_nice_range (-20)).mpr (by omega),
    fun h => ?_, fun h => ?_⟩
  · have := (C9_nice_range 25).mp h; omega
  · have := (C9_nice_range (-21)).mp h; omega

/-- C1: status() interpretation — when the primary `is-active` query exits
zero, its trimmed stdout maps "active"/"activating" to Running, "failed" to
Failed, "inactive" to a secondary `list-unit-files` query whose stdout
containing `<name>.service` decides Stopped vs NotInstalled, and any other
token to NotInstalled (never Unknown); a non-zero exit of the primary
query, or of the secondary query in the inactive branch, is a Command error
carrying the captured stderr. -/
theorem C1_status_interpretation (cfg : Config) (w : World) :
    (w.isActiveResult.success = true → strTrim w.isActiveResult.stdout = "active" →
      Systemd.status cfg w = .ok .Running) ∧
    (w.isActiveResult.success = true → strTrim w.isActiveResult.stdout = "activating" →
      Systemd.status cfg w = .ok .Running) ∧
    (w.isActiveResult.success = true → strTrim w.isActiveResult.stdout = "failed" →
      Systemd.status cfg w = .ok .Failed) ∧
    (w.isActiveResult.success = true → strTrim w.isActiveResult.stdout = "inactive" →
      w.listUnitFilesResult.success = true →
      containsSub w.listUnitFilesResult.stdout (Config.unit_name cfg) = true →
      Systemd.status cfg w = .ok .Stopped) ∧
    (w.isActiveResult.success = true → strTrim w.isActiveResult.stdout = "inactive" →
      w.listUnitFilesResult.success = true →
      containsSub w.listUnitFilesResult.stdout (Config.unit_name cfg) = false →
      Systemd.status cfg w = .ok .NotInstalled) ∧
    (w.isActiveResult.success = true → strTrim w.isActiveResult.stdout = "inactive" →
      w.listUnitFilesResult.success = false →
      Systemd.status cfg w = .error (.CommandError
        ("Failed to list unit files: " ++ w.listUnitFilesResult.stderr))) ∧
    (w.isActiveResult.success = true →
      strTrim w.isActiveResult.stdout ≠ "active" →
      strTrim w.isActiveResult.stdout ≠ "activating" →
      strTrim w.isActiveResult.stdout ≠ "failed" →
      strTrim w.isActiveResult.stdout ≠ "inactive" →
      Systemd.status cfg w = .ok .NotInstalled) ∧
    (w.isActiveResult.success = false →
      Systemd.status cfg w = .error (.CommandError
        ("Failed to get service status: " ++ w.isActiveResult.stderr))) ∧
    Systemd.status cfg w ≠ .ok .Unknown := by
  refine ⟨?_, ?_, ?_, ?_, ?_, ?_, ?_, ?_, ?_⟩
  · intro hp ht; simp [Systemd.status, hp, ht]
  · intro hp ht; simp [Systemd.status, hp, ht]
  · intro hp ht; simp [Systemd.status, hp, ht]
  · intro hp ht hs hc; simp [Systemd.status, hp, ht, hs, hc]
  · intro hp ht hs hc; simp [Systemd.status, hp, ht, hs, hc]
  · intro hp ht hs; simp [Systemd.status, hp, ht, hs]
  · intro hp h1 h2 h3 h4; simp [Systemd.status, hp, h1, h2, h3, h4]
  · intro hp; simp [Systemd.status, hp]
  · simp only [Systemd.status]
    split_ifs <;> simp

/-- Witness for C1: primary query reports `inactive`, secondary listing
contains `foo.service`, so status() returns Stopped. -/
theorem C1_status_interpretation_witness :
    Systemd.status fooConfig inactiveListedWorld = .ok .Stopped :=
  (C1_status_interpretation fooConfig inactiveListedWorld).2.2.2.1
    rfl (by decide) rfl (by decide)

/-- C4: when the derived unit-file path already exists, install() returns a
Validation error with an empty side-effect trace — no file is created or
modified and no external command is invoked. -/
theorem C4_install_existing_file (cfg : Config) (w : World)
    (h : w.fileExists = true) :
    ∃ msg, Systemd.install cfg w = (.error (.ValidationError msg), []) := by
  refine ⟨"Service file '" ++ Systemd.config_path cfg ++ "' already exists", ?_⟩
  simp [Systemd.install, h]

/-- Witness for C4 at the concrete "foo" configuration. -/
theorem C4_install_existing_file_witness :
    ∃ msg, Systemd.install fooConfig { okWorld with fileExists := true } =
      (.error (.ValidationError msg), []) :=
  C4_install_existing_file fooConfig { okWorld with fileExists := true } rfl

/-- C5: when the target path does not exist (and the file-system operations
succeed), install() creates the file, writes the rendered document, sets
mode 0644, then runs `enable <name>.service` followed by `daemon-reload`; a
non-zero exit of either command yields a Command error carrying the captured
stderr, and install() succeeds exactly when both commands exit zero. -/
theorem C5_install_fresh_path (cfg : Config) (w : World)
    (h0 : w.fileExists = false) (h1 : w.createResult = .ok ())
    (h2 : w.writeResult = .ok ()) (h3 : w.permResult = .ok ()) :
    ((Systemd.install cfg w).2.take 4 =
      [.createFile (Systemd.config_path cfg),
       .writeFile (Systemd.config_path cfg) (Config.fmt cfg),
       .setPermissions (Systemd.config_path cfg) 0o644,
       .runCommand ["enable", Config.unit_name cfg]]) ∧
    (w.enableResult.success = false →
      Systemd.install cfg w =
        (.error (.CommandError ("Failed to enable service: " ++ w.enableResult.stderr)),
         [.createFile (Systemd.config_path cfg),
          .writeFile (Systemd.config_path cfg) (Config.fmt cfg),
          .setPermissions (Systemd.config_path cfg) 0o644,
          .runCommand ["enable", Config.unit_name cfg]])) ∧
    (w.enableResult.success = true → w.reloadResult.success = false →
      Systemd.install cfg w =
        (.error (.CommandError
            ("Failed to reload systemd daemon: " ++ w.reloadResult.stderr)),
         [.createFile (Systemd.config_path cfg),
          .writeFile (Systemd.config_path cfg) (Config.fmt cfg),
          .setPermissions (Systemd.config_path cfg) 0o644,
          .runCommand ["enable", Config.unit_name cfg],
          .runCommand ["daemon-reload"]])) ∧
    (w.enableResult.success = true → w.reloadResult.success = true →
      Systemd.install cfg w =
        (.ok (),
         [.createFile (Systemd.config_path cfg),
          .writeFile (Systemd.config_path cfg) (Config.fmt cfg),
          .setPermissions (Systemd.config_path cfg) 0o644,
          .runCommand ["enable", Config.unit_name cfg],
          .runCommand ["daemon-reload"]])) ∧
    ((Systemd.install cfg w).1 = .ok () ↔
      w.enableResult.success = true ∧ w.reloadResult.success = true) := by
  have hperm : SERVICE_FILE_PERMISSIONS = 0o644 := rfl
  refine ⟨?_, ?_, ?_, ?_, ?_⟩
  · cases he : w.enableResult.success <;>
      cases hr : w.reloadResult.success <;>
        simp [Systemd.install, h0, h1, h2, h3, he, hr, hperm, List.take]
  · intro he; simp [Systemd.install, h0, h1, h2, h3, he, hperm]
  · intro he hr; simp [Systemd.install, h0, h1, h2, h3, he, hr, hperm]
  · intro he hr; simp [Systemd.install, h0, h1, h2, h3, he, hr, hperm]
  · cases he : w.enableResult.success <;>
      cases hr : w.reloadResult.success <;>
        simp [Systemd.install, h0, h1, h2, h3, he, hr, hperm]

/-- Witness for C5: with every operation succeeding, install() on the "foo"
configuration returns success. -/
theorem C5_install_fresh_path_witness :
    (Systemd.install fooConfig okWorld).1 = .ok () :=
  (C5_install_fresh_path fooConfig okWorld rfl rfl rfl rfl).2.2.2.2.mpr ⟨rfl, rfl⟩

/-- C6: uninstall() always runs `disable <name>.service` first; a non-zero
exit of the disable command yields a Command error carrying stderr with the
unit file left in place (no removal event), and only after a successful
disable is the file removed, a removal failure surfacing as an I/O error. -/
theorem C6_uninstall_order (cfg : Config) (w : World) :
    ((Systemd.uninstall cfg w).2.head? =
      some (.runCommand ["disable", Config.unit_name cfg])) ∧
    (w.disableResult.success = false →
      Systemd.uninstall cfg w =
        (.error (.CommandError
            ("Failed to disable service: " ++ w.disableResult.stderr)),
         [.runCommand ["disable", Config.unit_name cfg]])) ∧
    (w.disableResult.success = true →
      (Systemd.uninstall cfg w).2 =
        [.runCommand ["disable", Config.unit_name cfg],
         .removeFile (Systemd.config_path cfg)] ∧
      (w.removeResult = .ok () → (Systemd.uninstall cfg w).1 = .ok ()) ∧
      (∀ e, w.removeResult = .error e →
        (Systemd.uninstall cfg w).1 = .error (.IoError e))) := by
  refine ⟨?_, ?_, ?_⟩
  · cases hd : w.disableResult.success
    · simp [Systemd.uninstall, hd]
    · cases hr : w.removeResult <;> simp [Systemd.uninstall, hd, hr]
  · intro hd; simp [Systemd.uninstall, hd]
  · intro hd
    refine ⟨?_, ?_, ?_⟩
    · cases hr : w.removeResult <;> simp [Systemd.uninstall, hd, hr]
    · intro hr; simp [Systemd.uninstall, hd, hr]
    · intro e hr; simp [Systemd.uninstall, hd, hr]

/-- Witness for C6: when the disable command fails with stderr "boom",
uninstall() on the "foo" configuration surfaces the Command error and
performs no file removal. -/
theorem C6_uninstall_order_witness :
    Systemd.uninstall fooConfig { okWorld with disableResult := ⟨false, "", "boom"⟩ } =
      (.error (.CommandError ("Failed to disable service: " ++ "boom")),
       [.runCommand ["disable", Config.unit_name fooConfig]]) :=
  (C6_uninstall_order fooConfig
    { okWorld with disableResult := ⟨false, "", "boom"⟩ }).2.1 rfl

end Sudoservice
